import Mathlib

/-!
Verification of the TestDataFlow microservices specification against a
shallow embedding of its Python source.

Each definition below transcribes one function of the repository:
  - fulfillment_service/app/services.py   (shipment status transitions)
  - support_service/app/services.py       (ticket status normalization,
                                           timeline assembly)
  - support_service/app/timeline.py       (TimelineAggregator cache-aside)
  - notification_service/app/rate_limit.py (RateLimiter.allow)
  - inventory_service/app/services.py     (stock mutations)
  - catalog/order services                (decimal-cents conversion)

Machine-level effects (the async ORM session, Redis, HTTP) are modelled by
explicit state or by an oracle world describing the outcome of each external
call; Python exceptions are modelled with Except, and a caught exception is
a matched error branch exactly where the source has a try/except handler.
-/

/-- Model of Python's str.lower(), character by character.  The statuses and
channels the services lowercase are ASCII, where this agrees with Python. -/
def pyLower (s : String) : String := String.mk (s.data.map Char.toLower)

/-! ## Fulfillment shipment status transitions
Transcribed from fulfillment_service/app/services.py:
the module constants ALLOWED_STATUSES and STATUS_TRANSITIONS and the method
FulfillmentService.update_status.  Sets of statuses become lists (only
membership is used).  The Python guard reads
  if allowed and target_status not in allowed: raise ValueError(...)
where an empty set is falsy, so the guard is skipped entirely when the
current status has an empty transition set. -/

def allowedStatuses : List String :=
  ["pending", "ready", "processing", "packed", "shipped", "delivered",
   "cancelled", "delayed", "return_initiated"]

/-- Transcription of the STATUS_TRANSITIONS dict; the source looks keys up
with .get(current, set()), so unknown keys yield the empty set. -/
def statusTransitions (s : String) : List String :=
  if s = "pending" then ["ready", "processing", "packed", "cancelled"]
  else if s = "ready" then ["processing", "packed", "shipped", "cancelled"]
  else if s = "processing" then ["packed", "shipped", "cancelled"]
  else if s = "packed" then ["shipped", "cancelled", "delayed"]
  else if s = "shipped" then ["delivered", "delayed", "return_initiated"]
  else if s = "delivered" then ["return_initiated"]
  else if s = "delayed" then ["shipped", "delivered", "cancelled"]
  else []

/-- Transcription of FulfillmentService.update_status restricted to the
status decision (the repository write and event emission happen only on the
success path and do not affect which branch is taken).  Returns the stored
target status or the ValueError message. -/
def updateShipmentStatus (current target : String) : Except String String :=
  if pyLower target ∉ allowedStatuses then
    Except.error "Unsupported status transition"
  else if pyLower current = pyLower target then
    Except.error "Shipment already in target status"
  else if statusTransitions (pyLower current) ≠ [] ∧
      pyLower target ∉ statusTransitions (pyLower current) then
    Except.error "Invalid status transition"
  else Except.ok (pyLower target)

/-- Transcription of the status route in fulfillment_service/app/api/fulfillment.py:
a ValueError from the service is mapped to HTTP 409 with the message as
detail; success returns 200 with the updated status. -/
def shipmentStatusEndpoint (current target : String) : Nat × String :=
  match updateShipmentStatus current target with
  | Except.error m => (409, m)
  | Except.ok s => (200, s)

/-! ## Support ticket status updates
Transcribed from support_service/app/services.py: the module constant
ALLOWED_STATUS, the helper normalize_status and the method
SupportService.update_status, which has no transition table and no failure
path: it stores the normalized status unconditionally. -/

def allowedTicketStatuses : List String := ["open", "pending", "resolved", "closed"]

/-- Transcription of the normalize_status helper of the support service. -/
def normalizeStatus (value : Option String) : String :=
  match value with
  | none => "open"
  | some s =>
    if pyLower s ∈ allowedTicketStatuses then pyLower s else "open"

/-- Support ticket state; only the fields the modelled operations touch. -/
structure Ticket where
  status : String
  deriving Repr, DecidableEq

/-- Transcription of SupportService.update_status: the repository stores the
normalized status; nothing is validated and nothing raises. -/
def supportUpdateStatus (t : Ticket) (status : String) : Ticket :=
  { t with status := normalizeStatus (some status) }

/-- Transcription of the status route in support_service/app/api/support.py
for an existing ticket: the service call always succeeds, so the route
returns 200 with the stored status. -/
def ticketStatusEndpoint (t : Ticket) (s : String) : Nat × String :=
  (200, (supportUpdateStatus t s).status)

/-! ## Inventory stock mutations
Transcribed from inventory_service/app/services.py.  An InventoryItem row
carries quantity_on_hand, quantity_reserved and safety_stock; each mutation
either raises ValueError before any write (so the row is unchanged) or
writes the new quantities. -/

structure InventoryItem where
  quantity_on_hand : Int
  quantity_reserved : Int
  safety_stock : Int
  deriving Repr, DecidableEq

/-- Transcription of InventoryService.adjust_stock (the quantity logic; the
emitted audit events do not change the row's quantities). -/
def adjustStock (item : InventoryItem) (quantityOnHand : Int)
    (safetyStock : Option Int) : Except String InventoryItem :=
  if quantityOnHand < item.quantity_reserved then
    Except.error "quantity on hand cannot be less than reserved"
  else
    Except.ok { item with
      quantity_on_hand := quantityOnHand,
      safety_stock := safetyStock.getD item.safety_stock }

/-- Transcription of InventoryService.increment_stock. -/
def incrementStock (item : InventoryItem) (quantity : Int) :
    Except String InventoryItem :=
  if quantity < 0 then Except.error "increment quantity must be non-negative"
  else Except.ok { item with quantity_on_hand := item.quantity_on_hand + quantity }

/-- Transcription of InventoryService.reserve. -/
def reserve (item : InventoryItem) (quantity : Int) : Except String InventoryItem :=
  if quantity ≤ 0 then Except.error "quantity must be positive"
  else if quantity > item.quantity_on_hand - item.quantity_reserved then
    Except.error "insufficient available quantity"
  else Except.ok { item with quantity_reserved := item.quantity_reserved + quantity }

/-- Transcription of InventoryService.release. -/
def release (item : InventoryItem) (quantity : Int) : Except String InventoryItem :=
  if quantity ≤ 0 then Except.error "quantity must be positive"
  else if quantity > item.quantity_reserved then
    Except.error "cannot release more than reserved"
  else Except.ok { item with quantity_reserved := item.quantity_reserved - quantity }

/-- Transcription of InventoryService.commit. -/
def commitStock (item : InventoryItem) (quantity : Int) : Except String InventoryItem :=
  if quantity ≤ 0 then Except.error "quantity must be positive"
  else if quantity > item.quantity_reserved then
    Except.error "cannot commit more than reserved"
  else if quantity > item.quantity_on_hand then
    Except.error "cannot commit more than on-hand"
  else Except.ok
    { item with
      quantity_on_hand := item.quantity_on_hand - quantity,
      quantity_reserved := item.quantity_reserved - quantity }

/-- Transcription of the reserve route in
inventory_service/app/api/inventory.py for an existing item: a ValueError is
mapped to HTTP 409 with the message as detail and the stored row is the
unmodified item; success returns 200 and stores the updated row. -/
def reserveEndpoint (item : InventoryItem) (quantity : Int) :
    (Nat × String) × InventoryItem :=
  match reserve item quantity with
  | Except.error m => ((409, m), item)
  | Except.ok item' => ((200, ""), item')

/-- The row invariant implied by the guards of the inventory service. -/
def InvInventory (item : InventoryItem) : Prop :=
  0 ≤ item.quantity_reserved ∧ item.quantity_reserved ≤ item.quantity_on_hand

instance (item : InventoryItem) : Decidable (InvInventory item) := by
  unfold InvInventory; infer_instance

/-! ## Notification rate limiter
Transcribed from notification_service/app/rate_limit.py.  The Redis counter
store is a map from key strings to integers; the behaviour of each Redis
call in one invocation of allow is an oracle flag saying whether that call
raises.  The error metric NOTIFICATION_RATE_LIMIT_ERRORS_TOTAL is modelled
as a count of .inc() calls. -/

/-- Outcome oracle for the three Redis calls inside one RateLimiter.allow
invocation: true means the call raises. -/
structure RLWorld where
  incrbyErr : Bool
  expireErr : Bool
  decrbyErr : Bool
  deriving Repr, DecidableEq

structure RLResult where
  allowed : Bool
  counter : String → Int
  errors : Nat

/-- Transcription of RateLimiter.__init__ clamping of the configured limit:
self.limit = max(limit, 1). -/
def mkLimit (limit : Int) : Int := max limit 1

/-- Transcription of the key computed inside RateLimiter.allow:
key_prefix + ":" + channel.lower(). -/
def rlKey (keyPref channel : String) : String := keyPref ++ ":" ++ pyLower channel

/-- Transcription of RateLimiter.allow for a limiter whose Redis client is
present.  incrby returns the incremented counter; expire is called only when
the returned count equals the amount (first increment of the window) and its
result never changes the decision; decrby rolls the counter back before the
call returns False. -/
def rlAllow (limit : Int) (keyPref : String) (store : String → Int)
    (w : RLWorld) (channel : String) (amount : Int) : RLResult :=
  if amount ≤ 0 then ⟨true, store, 0⟩
  else
    let key := rlKey keyPref channel
    if w.incrbyErr then ⟨true, store, 1⟩
    else
      let count := store key + amount
      let store1 : String → Int := fun k => if k = key then count else store k
      let expireErrors := if count = amount ∧ w.expireErr then 1 else 0
      if count > limit then
        if w.decrbyErr then ⟨true, store1, expireErrors + 1⟩
        else ⟨false, fun k => if k = key then count - amount else store1 k, expireErrors⟩
      else ⟨true, store1, expireErrors⟩

/-! ## Support timeline aggregation (TimelineAggregator)
Transcribed from support_service/app/timeline.py.  Timeline entries are
opaque payloads (the aggregation never inspects them); each external
interaction of one collect call is an oracle:
  - the Redis GET (raises, returns nothing, returns undecodable JSON, or
    returns a decodable entry list),
  - the up-to-three gathered fetch coroutines (raise or return a list;
    asyncio.gather is called with return_exceptions=True, and the inner
    HTTP helper get_json catches httpx.HTTPError and json.JSONDecodeError
    itself, returning None, which the fetch helpers turn into []),
  - the Redis SET of the freshly built value.
Stats counts the gathered fetch tasks and the failure-counter increments
with stage="cache" (SUPPORT_TIMELINE_COLLECTION_FAILURES_TOTAL). -/

/-- References extracted from the ticket context by extract_references. -/
structure References where
  orderId : Option Nat
  paymentIds : List Nat
  shipmentIds : List Nat
  deriving Repr, DecidableEq

/-- Combined outcome of redis.get plus json.loads on the cached string. -/
inductive CacheReadOutcome where
  | raised
  | missing
  | badJson
  | hitGood (entries : List String)
  deriving Repr, DecidableEq

/-- Oracle world for one TimelineAggregator.collect call. -/
structure TimelineWorld where
  redisSome : Bool
  cacheTtl : Int
  cacheRead : CacheReadOutcome
  refs : References
  hasOrderUrl : Bool
  hasPaymentUrl : Bool
  hasFulfillmentUrl : Bool
  orderFetch : Except Unit (List String)
  paymentFetch : Except Unit (List String)
  shipmentFetch : Except Unit (List String)
  cacheWrite : Except Unit Unit

structure CollectStats where
  httpTasks : Nat
  cacheFailures : Nat
  deriving Repr, DecidableEq

/-- Transcription of the guard `self.redis is not None and self.cache_ttl > 0`
that brackets both the cache read and the cache write in collect. -/
def cacheEnabled (w : TimelineWorld) : Bool :=
  w.redisSome && decide (0 < w.cacheTtl)

/-- Transcription of the task list assembled by TimelineAggregator.build_entries
from the extracted references and the configured base URLs. -/
def buildEntriesTasks (w : TimelineWorld) : List (Except Unit (List String)) :=
  (if w.refs.orderId.isSome && w.hasOrderUrl then [w.orderFetch] else []) ++
  (if w.hasPaymentUrl && (!w.refs.paymentIds.isEmpty || w.refs.orderId.isSome)
    then [w.paymentFetch] else []) ++
  (if w.hasFulfillmentUrl && (!w.refs.shipmentIds.isEmpty || w.refs.orderId.isSome)
    then [w.shipmentFetch] else [])

/-- Transcription of TimelineAggregator.build_entries: with no tasks it
returns []; otherwise the gathered results are folded, skipping entries that
raised and concatenating the returned lists. -/
def buildEntries (w : TimelineWorld) : List String :=
  if (buildEntriesTasks w).isEmpty then []
  else
    (buildEntriesTasks w).foldl
      (fun acc r =>
        match r with
        | Except.error _ => acc
        | Except.ok l => acc ++ l)
      []

/-- Transcription of TimelineAggregator.cache_key. -/
def cacheKey (ticketId : String) : String := "support:timeline:" ++ ticketId

/-- The remote branch of collect: build the entries, then best-effort cache
write (its try/except swallows the error and bumps the stage="cache"
failure counter).  preFailures carries a failure already counted by the
cache-read branch. -/
def collectMiss (w : TimelineWorld) (preFailures : Nat) :
    Except Unit (List String × CollectStats) :=
  let entries := buildEntries w
  let tasks := (buildEntriesTasks w).length
  if cacheEnabled w then
    match w.cacheWrite with
    | Except.error _ => Except.ok (entries, ⟨tasks, preFailures + 1⟩)
    | Except.ok _ => Except.ok (entries, ⟨tasks, preFailures⟩)
  else Except.ok (entries, ⟨tasks, preFailures⟩)

/-- Transcription of TimelineAggregator.collect.  A raising Redis GET is
caught and counted (stage="cache") and falls through to the remote branch;
an undecodable cached value is counted under a different stage label
(cache_decode, not tallied here) and falls through likewise; a decodable
cached value returns immediately with no fetch tasks. -/
def collect (w : TimelineWorld) : Except Unit (List String × CollectStats) :=
  if cacheEnabled w then
    match w.cacheRead with
    | CacheReadOutcome.raised => collectMiss w 1
    | CacheReadOutcome.missing => collectMiss w 0
    | CacheReadOutcome.badJson => collectMiss w 0
    | CacheReadOutcome.hitGood entries => Except.ok (entries, ⟨0, 0⟩)
  else collectMiss w 0

/-- A collect call that returns straight from the cache: the cache bracket
guard holds and the read produced a decodable value. -/
def hitsCache (w : TimelineWorld) : Prop :=
  cacheEnabled w = true ∧ ∃ l, w.cacheRead = CacheReadOutcome.hitGood l

/-- All three possible remote fetches raise. -/
def allFetchesFail (w : TimelineWorld) : Prop :=
  w.orderFetch = Except.error () ∧ w.paymentFetch = Except.error () ∧
    w.shipmentFetch = Except.error ()

/-- A ticket context carrying no order, payment or shipment references. -/
def noRefs (r : References) : Prop := r = ⟨none, [], []⟩

/-! ## Decimal currency conversion
Transcribed from catalog_service/app/api/products.py (to_price_cents and
serialize_product) and order_service/app/services.py (to_cents, identical)
plus the order routes' two-decimal serialization.  Decimal values are
modelled as exact rationals; Decimal's ROUND_HALF_UP rounds to the nearest
integer with ties away from zero, and quantize's default context rounding is
ROUND_HALF_EVEN (ties to even). -/

/-- Rounding to the nearest integer with ties away from zero, the meaning of
Decimal.to_integral_value(rounding=ROUND_HALF_UP). -/
def roundHalfUpAway (x : ℚ) : ℤ :=
  if 0 ≤ x then ⌊x + 1 / 2⌋ else -⌊-x + 1 / 2⌋

/-- Rounding to the nearest integer with ties to even, the default context
rounding that Decimal.quantize uses. -/
def roundHalfEven (x : ℚ) : ℤ :=
  let f := ⌊x⌋
  if x - f < 1 / 2 then f
  else if 1 / 2 < x - f then f + 1
  else if f % 2 = 0 then f else f + 1

/-- Transcription of to_price_cents (catalog) and to_cents (order):
int((amount * Decimal(100)).to_integral_value(rounding=ROUND_HALF_UP)). -/
def toCents (amount : ℚ) : ℤ := roundHalfUpAway (amount * 100)

/-- Transcription of the serialization of a stored cents column:
(Decimal(cents) / Decimal(100)).quantize(Decimal(0.01)), i.e. the quotient
rounded to two decimal places. -/
def serializePrice (cents : ℤ) : ℚ :=
  (roundHalfEven ((cents : ℚ) / 100 * 100) : ℚ) / 100

/-! ## Support timeline assembly ordering
Transcribed from build_timeline in support_service/app/services.py.  Every
entry is paired with a datetime sort key (the entry's own timestamp field is
the ISO rendering of that key), the four groups (context entries,
conversations, attachments, external aggregator entries) are appended in
that order, and entries.sort(key=item -> item[0]) sorts them.  Datetimes are
modelled as integers; Python's list.sort is a stable sort by key, and a
stable sort by key is a unique function, so any stable sort embeds it
faithfully; insertion sort is one. -/

structure TimelineEntry where
  timestamp : Int
  payload : String
  deriving Repr, DecidableEq

/-- Order of the sort key used by entries.sort in build_timeline. -/
def entryLE (a b : TimelineEntry) : Prop := a.timestamp ≤ b.timestamp

instance : DecidableRel entryLE := fun a b => by
  unfold entryLE; infer_instance

instance : IsTotal TimelineEntry entryLE :=
  ⟨fun a b => Int.le_total a.timestamp b.timestamp⟩

instance : IsTrans TimelineEntry entryLE :=
  ⟨fun _ _ _ h h' => le_trans h h'⟩

/-- Transcription of build_timeline restricted to ordering: the four entry
groups are concatenated and sorted by timestamp. -/
def buildTimeline (ctx conv att ext : List TimelineEntry) : List TimelineEntry :=
  List.insertionSort entryLE (ctx ++ conv ++ att ++ ext)

/-! ## Theorems -/

/-- C1 (amended): a fulfillment status update whose lowercased target is not
in the adjacency entry of the current status is rejected with a domain error
(HTTP 409) whenever that adjacency entry is nonempty; support-ticket status
updates perform no transition validation at all and always return 200. -/
theorem fulfillment_transition_guard (current target : String)
    (hne : statusTransitions (pyLower current) ≠ [])
    (hnot : pyLower target ∉ statusTransitions (pyLower current)) :
    ((∃ m, updateShipmentStatus current target = Except.error m) ∧
      (shipmentStatusEndpoint current target).1 = 409) ∧
    ∀ (t : Ticket) (s : String), (ticketStatusEndpoint t s).1 = 200 := by
  have herr : ∃ m, updateShipmentStatus current target = Except.error m := by
    unfold updateShipmentStatus
    split
    · exact ⟨_, rfl⟩
    · split
      · exact ⟨_, rfl⟩
      · split
        · exact ⟨_, rfl⟩
        · rename_i hok
          exact absurd ⟨hne, hnot⟩ hok
  obtain ⟨m, hm⟩ := herr
  refine ⟨⟨⟨m, hm⟩, ?_⟩, fun t s => rfl⟩
  unfold shipmentStatusEndpoint
  rw [hm]

/-- C1 witness: the known target status "delivered" is not reachable from
"pending", and the request is rejected with 409. -/
theorem fulfillment_transition_guard_witness :
    (statusTransitions (pyLower "pending") ≠ [] ∧
      pyLower "delivered" ∉ statusTransitions (pyLower "pending")) ∧
    (((∃ m, updateShipmentStatus "pending" "delivered" = Except.error m) ∧
        (shipmentStatusEndpoint "pending" "delivered").1 = 409) ∧
      ∀ (t : Ticket) (s : String), (ticketStatusEndpoint t s).1 = 200) :=
  ⟨⟨by decide, by decide⟩,
    fulfillment_transition_guard "pending" "delivered" (by decide) (by decide)⟩

/-- C1 counterexample: the adjacency table permits nothing from the terminal
status "cancelled", yet the update from "cancelled" to "shipped" is accepted
with HTTP 200 because the empty transition set skips the guard. -/
theorem fulfillment_terminal_not_guarded :
    updateShipmentStatus "cancelled" "shipped" = Except.ok "shipped" ∧
    statusTransitions "cancelled" = [] ∧
    "shipped" ∈ allowedStatuses ∧
    shipmentStatusEndpoint "cancelled" "shipped" = (200, "shipped") :=
  ⟨rfl, rfl, by decide, rfl⟩

/-- C10: a support-ticket status update whose lowercased value is outside
the allowed set is not rejected: the stored status becomes "open" and the
route returns 200. -/
theorem support_status_normalized (t : Ticket) (s : String)
    (h : pyLower s ∉ allowedTicketStatuses) :
    supportUpdateStatus t s = { t with status := "open" } ∧
    (ticketStatusEndpoint t s).1 = 200 := by
  refine ⟨?_, rfl⟩
  unfold supportUpdateStatus normalizeStatus
  simp [h]

/-- C10 witness: the unrecognized status "escalated" is stored as "open"
with a 200 response. -/
theorem support_status_normalized_witness :
    pyLower "escalated" ∉ allowedTicketStatuses ∧
    (supportUpdateStatus ⟨"open"⟩ "escalated" = ⟨"open"⟩ ∧
      (ticketStatusEndpoint ⟨"open"⟩ "escalated").1 = 200) :=
  ⟨by decide, support_status_normalized ⟨"open"⟩ "escalated" (by decide)⟩

/-- C8: the ticket timeline assembled by build_timeline is sorted by
timestamp, so the aggregator entries it contains appear in nondecreasing
timestamp order. -/
theorem timeline_sorted (ctx conv att ext : List TimelineEntry) :
    List.Sorted entryLE (buildTimeline ctx conv att ext) :=
  List.sorted_insertionSort entryLE _

/-- Floor of an integer plus one half. -/
theorem floor_add_half_intCast (n : ℤ) : ⌊(n : ℚ) + 1 / 2⌋ = n := by
  rw [add_comm, Int.floor_add_int]
  norm_num

/-- Half-up rounding fixes the integers. -/
theorem roundHalfUpAway_intCast (n : ℤ) : roundHalfUpAway (n : ℚ) = n := by
  unfold roundHalfUpAway
  split
  · exact floor_add_half_intCast n
  · rw [show -(n : ℚ) = ((-n : ℤ) : ℚ) by push_cast; ring, floor_add_half_intCast]
    ring

/-- Half-even rounding fixes the integers. -/
theorem roundHalfEven_intCast (n : ℤ) : roundHalfEven (n : ℚ) = n := by
  unfold roundHalfEven
  rw [Int.floor_intCast]
  norm_num

/-- C7: the cents conversion is the amount times 100 rounded half-up, and
every amount with at most two decimal places (amount times 100 an integer)
round-trips through the conversion and the two-decimal serialization. -/
theorem cents_roundtrip (a : ℚ) (n : ℤ) (h : a * 100 = (n : ℚ)) :
    toCents a = n ∧ serializePrice (toCents a) = a := by
  have h1 : toCents a = n := by
    unfold toCents
    rw [h, roundHalfUpAway_intCast]
  refine ⟨h1, ?_⟩
  unfold serializePrice
  rw [h1, div_mul_cancel₀ _ (by norm_num : (100 : ℚ) ≠ 0), roundHalfEven_intCast]
  have : a = (n : ℚ) / 100 := by
    field_simp
    linarith [h]
  linarith [this]

/-- C7 witness: 2.51 converts to 251 cents and serializes back to 2.51. -/
theorem cents_roundtrip_witness :
    (251 / 100 : ℚ) * 100 = ((251 : ℤ) : ℚ) ∧
    (toCents (251 / 100 : ℚ) = 251 ∧
      serializePrice (toCents (251 / 100 : ℚ)) = 251 / 100) :=
  ⟨by norm_num, cents_roundtrip (251 / 100 : ℚ) 251 (by norm_num)⟩

/-- C6: for an item satisfying the reserved-at-most-on-hand invariant,
reserving more than the available quantity is rejected with HTTP 409 and
the message "insufficient available quantity", leaving the row unchanged,
while reserving a positive quantity within availability increments
quantity_reserved and leaves quantity_on_hand unchanged. -/
theorem inventory_reserve_spec (item : InventoryItem) (q : Int)
    (hinv : item.quantity_reserved ≤ item.quantity_on_hand) :
    (q > item.quantity_on_hand - item.quantity_reserved →
      reserve item q = Except.error "insufficient available quantity" ∧
      reserveEndpoint item q = ((409, "insufficient available quantity"), item)) ∧
    (0 < q → q ≤ item.quantity_on_hand - item.quantity_reserved →
      reserve item q =
        Except.ok { item with quantity_reserved := item.quantity_reserved + q } ∧
      reserveEndpoint item q =
        ((200, ""), { item with quantity_reserved := item.quantity_reserved + q })) := by
  constructor
  · intro hover
    have hq : ¬ q ≤ 0 := by omega
    have herr : reserve item q = Except.error "insufficient available quantity" := by
      unfold reserve
      rw [if_neg hq, if_pos hover]
    refine ⟨herr, ?_⟩
    unfold reserveEndpoint
    rw [herr]
  · intro hpos hfit
    have hq : ¬ q ≤ 0 := by omega
    have hok : reserve item q =
        Except.ok { item with quantity_reserved := item.quantity_reserved + q } := by
      unfold reserve
      rw [if_neg hq, if_neg (by omega)]
    refine ⟨hok, ?_⟩
    unfold reserveEndpoint
    rw [hok]

/-- C6 witness: on hand 5 with 2 reserved; reserving 4 returns 409 and
leaves the row unchanged, reserving 3 succeeds. -/
theorem inventory_reserve_spec_witness :
    (2 : Int) ≤ 5 ∧
    (((4 : Int) > 5 - 2 →
      reserve ⟨5, 2, 0⟩ 4 = Except.error "insufficient available quantity" ∧
      reserveEndpoint ⟨5, 2, 0⟩ 4 =
        ((409, "insufficient available quantity"), ⟨5, 2, 0⟩)) ∧
    ((0 : Int) < 4 → (4 : Int) ≤ 5 - 2 →
      reserve ⟨5, 2, 0⟩ 4 = Except.ok ⟨5, 2 + 4, 0⟩ ∧
      reserveEndpoint ⟨5, 2, 0⟩ 4 = ((200, ""), ⟨5, 2 + 4, 0⟩))) :=
  ⟨by decide, inventory_reserve_spec ⟨5, 2, 0⟩ 4 (by decide)⟩

/-- C9: each inventory mutation, applied to a row satisfying
0 <= quantity_reserved <= quantity_on_hand, yields a row satisfying it again
whenever it succeeds (and a raising call performs no write at all, so the
stored row still satisfies it). -/
theorem inventory_invariant_preserved (item item' : InventoryItem) (q : Int)
    (ss : Option Int) (h : InvInventory item) :
    (adjustStock item q ss = Except.ok item' → InvInventory item') ∧
    (incrementStock item q = Except.ok item' → InvInventory item') ∧
    (reserve item q = Except.ok item' → InvInventory item') ∧
    (release item q = Except.ok item' → InvInventory item') ∧
    (commitStock item q = Except.ok item' → InvInventory item') := by
  obtain ⟨h0, h1⟩ := h
  refine ⟨?_, ?_, ?_, ?_, ?_⟩ <;> intro heq
  · unfold adjustStock at heq
    split at heq
    · exact absurd heq (by simp)
    · obtain rfl := Except.ok.inj heq
      exact ⟨by simpa using h0, by simp; omega⟩
  · unfold incrementStock at heq
    split at heq
    · exact absurd heq (by simp)
    · obtain rfl := Except.ok.inj heq
      exact ⟨by simpa using h0, by simp; omega⟩
  · unfold reserve at heq
    split at heq
    · exact absurd heq (by simp)
    · split at heq
      · exact absurd heq (by simp)
      · obtain rfl := Except.ok.inj heq
        exact ⟨by simp; omega, by simp; omega⟩
  · unfold release at heq
    split at heq
    · exact absurd heq (by simp)
    · split at heq
      · exact absurd heq (by simp)
      · obtain rfl := Except.ok.inj heq
        exact ⟨by simp; omega, by simp; omega⟩
  · unfold commitStock at heq
    split at heq
    · exact absurd heq (by simp)
    · split at heq
      · exact absurd heq (by simp)
      · split at heq
        · exact absurd heq (by simp)
        · obtain rfl := Except.ok.inj heq
          exact ⟨by simp; omega, by simp; omega⟩

/-- C9 witness: the invariant holds for on hand 5, reserved 2, and is
carried to the successor rows of each mutation at quantity 3. -/
theorem inventory_invariant_preserved_witness :
    InvInventory ⟨5, 2, 0⟩ ∧
    ((adjustStock ⟨5, 2, 0⟩ 3 none = Except.ok ⟨3, 2, 0⟩ → InvInventory ⟨3, 2, 0⟩) ∧
     (incrementStock ⟨5, 2, 0⟩ 3 = Except.ok ⟨3, 2, 0⟩ → InvInventory ⟨3, 2, 0⟩) ∧
     (reserve ⟨5, 2, 0⟩ 3 = Except.ok ⟨3, 2, 0⟩ → InvInventory ⟨3, 2, 0⟩) ∧
     (release ⟨5, 2, 0⟩ 3 = Except.ok ⟨3, 2, 0⟩ → InvInventory ⟨3, 2, 0⟩) ∧
     (commitStock ⟨5, 2, 0⟩ 3 = Except.ok ⟨3, 2, 0⟩ → InvInventory ⟨3, 2, 0⟩)) :=
  ⟨by decide, inventory_invariant_preserved ⟨5, 2, 0⟩ ⟨3, 2, 0⟩ 3 none (by decide)⟩

/-- C2: with no Redis errors, allow increments the channel's counter by the
requested positive amount; when the new count exceeds the configured limit
(any configured limit of at least one, which the constructor stores
unchanged) the counter is rolled back and the call returns false, otherwise
it returns true and the counter keeps the incremented value. -/
theorem rate_limiter_allow_spec (limitArg : Int) (keyPref channel : String)
    (store : String → Int) (amount : Int) (hL : 1 ≤ limitArg) (hpos : 0 < amount) :
    (store (rlKey keyPref channel) + amount > limitArg →
      (rlAllow (mkLimit limitArg) keyPref store ⟨false, false, false⟩ channel amount).allowed = false ∧
      (rlAllow (mkLimit limitArg) keyPref store ⟨false, false, false⟩ channel amount).counter
        (rlKey keyPref channel) = store (rlKey keyPref channel)) ∧
    (store (rlKey keyPref channel) + amount ≤ limitArg →
      (rlAllow (mkLimit limitArg) keyPref store ⟨false, false, false⟩ channel amount).allowed = true ∧
      (rlAllow (mkLimit limitArg) keyPref store ⟨false, false, false⟩ channel amount).counter
        (rlKey keyPref channel) = store (rlKey keyPref channel) + amount) := by
  have hm : mkLimit limitArg = limitArg := max_eq_left hL
  have hq : ¬ amount ≤ 0 := by omega
  constructor
  · intro hover
    simp only [rlAllow, if_neg hq, hm]
    simp [hover]
  · intro hunder
    simp only [rlAllow, if_neg hq, hm]
    simp [not_lt.mpr hunder]

/-- C2 witness: limit 2, empty counter; a request of amount 1 is allowed and
the counter becomes 1; at amount 3 it would be rejected and rolled back. -/
theorem rate_limiter_allow_spec_witness :
    ((1 : Int) ≤ 2 ∧ (0 : Int) < 1) ∧
    (((fun _ => (0 : Int)) (rlKey "notification_rate" "email") + 1 > 2 →
      (rlAllow (mkLimit 2) "notification_rate" (fun _ => 0) ⟨false, false, false⟩ "email" 1).allowed = false ∧
      (rlAllow (mkLimit 2) "notification_rate" (fun _ => 0) ⟨false, false, false⟩ "email" 1).counter
        (rlKey "notification_rate" "email") = (fun _ => (0 : Int)) (rlKey "notification_rate" "email")) ∧
    ((fun _ => (0 : Int)) (rlKey "notification_rate" "email") + 1 ≤ 2 →
      (rlAllow (mkLimit 2) "notification_rate" (fun _ => 0) ⟨false, false, false⟩ "email" 1).allowed = true ∧
      (rlAllow (mkLimit 2) "notification_rate" (fun _ => 0) ⟨false, false, false⟩ "email" 1).counter
        (rlKey "notification_rate" "email") = (fun _ => (0 : Int)) (rlKey "notification_rate" "email") + 1)) :=
  ⟨⟨by decide, by decide⟩,
    rate_limiter_allow_spec 2 "notification_rate" "email" (fun _ => 0) 1
      (by decide) (by decide)⟩

/-- C3 counterexample: configured limit 1, fresh counter, request of amount
2; the expire call raises (and the error counter records it), the decrement
succeeds, and the call returns false, not true. -/
theorem rate_limiter_expire_error_blocks :
    (rlAllow (mkLimit 1) "notification_rate" (fun _ => 0)
      ⟨false, true, false⟩ "email" 2).allowed = false ∧
    (rlAllow (mkLimit 1) "notification_rate" (fun _ => 0)
      ⟨false, true, false⟩ "email" 2).errors = 1 :=
  ⟨rfl, rfl⟩

/-- C3 (amended): a raising increment returns true with an error recorded; a
raising rollback decrement returns true with an error recorded; a raising
expire is only recorded — it changes neither the decision nor the counter,
so such a call can still return false. -/
theorem rate_limiter_fail_open (limit : Int) (keyPref channel : String)
    (store : String → Int) (w : RLWorld) (amount : Int) (hpos : 0 < amount) :
    (w.incrbyErr = true →
      (rlAllow limit keyPref store w channel amount).allowed = true ∧
      1 ≤ (rlAllow limit keyPref store w channel amount).errors) ∧
    (w.incrbyErr = false → w.decrbyErr = true →
      store (rlKey keyPref channel) + amount > limit →
      (rlAllow limit keyPref store w channel amount).allowed = true ∧
      1 ≤ (rlAllow limit keyPref store w channel amount).errors) ∧
    ((rlAllow limit keyPref store ⟨false, w.expireErr, false⟩ channel amount).allowed =
      (rlAllow limit keyPref store ⟨false, false, false⟩ channel amount).allowed ∧
     (rlAllow limit keyPref store ⟨false, w.expireErr, false⟩ channel amount).counter =
      (rlAllow limit keyPref store ⟨false, false, false⟩ channel amount).counter) := by
  have hq : ¬ amount ≤ 0 := by omega
  refine ⟨?_, ?_, ?_⟩
  · intro hi
    simp [rlAllow, if_neg hq, hi]
  · intro hi hd hover
    simp [rlAllow, if_neg hq, hi, hd, hover]
  · constructor
    · simp only [rlAllow, if_neg hq]
      split <;> first | rfl | (split <;> rfl)
    · simp only [rlAllow, if_neg hq]
      split <;> first | rfl | (split <;> rfl)

/-- C3 witness: with a raising increment at amount 1 the call is allowed and
the error is recorded. -/
theorem rate_limiter_fail_open_witness :
    (0 : Int) < 1 ∧
    ((RLWorld.mk true false false).incrbyErr = true →
      (rlAllow 1 "notification_rate" (fun _ => 0) ⟨true, false, false⟩ "sms" 1).allowed = true ∧
      1 ≤ (rlAllow 1 "notification_rate" (fun _ => 0) ⟨true, false, false⟩ "sms" 1).errors) ∧
    ((RLWorld.mk true false false).incrbyErr = false → (RLWorld.mk true false false).decrbyErr = true →
      (fun _ => (0 : Int)) (rlKey "notification_rate" "sms") + 1 > 1 →
      (rlAllow 1 "notification_rate" (fun _ => 0) ⟨true, false, false⟩ "sms" 1).allowed = true ∧
      1 ≤ (rlAllow 1 "notification_rate" (fun _ => 0) ⟨true, false, false⟩ "sms" 1).errors) ∧
    ((rlAllow 1 "notification_rate" (fun _ => 0) ⟨false, (RLWorld.mk true false false).expireErr, false⟩ "sms" 1).allowed =
      (rlAllow 1 "notification_rate" (fun _ => 0) ⟨false, false, false⟩ "sms" 1).allowed ∧
     (rlAllow 1 "notification_rate" (fun _ => 0) ⟨false, (RLWorld.mk true false false).expireErr, false⟩ "sms" 1).counter =
      (rlAllow 1 "notification_rate" (fun _ => 0) ⟨false, false, false⟩ "sms" 1).counter) :=
  ⟨by decide,
    rate_limiter_fail_open 1 "notification_rate" "sms" (fun _ => 0)
      ⟨true, false, false⟩ 1 (by decide)⟩

/-- The remote branch of collect always returns, whatever the cache write
does. -/
theorem collectMiss_ok (w : TimelineWorld) (pre : Nat) :
    ∃ s, collectMiss w pre = Except.ok (buildEntries w, s) := by
  unfold collectMiss
  split
  · split
    · exact ⟨_, rfl⟩
    · exact ⟨_, rfl⟩
  · exact ⟨_, rfl⟩

/-- collect always returns, whatever the cache and the fetches do. -/
theorem collect_isOk (w : TimelineWorld) :
    ∃ out, collect w = Except.ok out := by
  unfold collect
  split
  · match hr : w.cacheRead with
    | CacheReadOutcome.raised =>
      obtain ⟨s, hs⟩ := collectMiss_ok w 1
      exact ⟨_, hs⟩
    | CacheReadOutcome.missing =>
      obtain ⟨s, hs⟩ := collectMiss_ok w 0
      exact ⟨_, hs⟩
    | CacheReadOutcome.badJson =>
      obtain ⟨s, hs⟩ := collectMiss_ok w 0
      exact ⟨_, hs⟩
    | CacheReadOutcome.hitGood entries => exact ⟨_, rfl⟩
  · obtain ⟨s, hs⟩ := collectMiss_ok w 0
    exact ⟨_, hs⟩

/-- With no extracted references no fetch task is assembled. -/
theorem buildEntries_noRefs (w : TimelineWorld) (h : noRefs w.refs) :
    buildEntries w = [] ∧ buildEntriesTasks w = [] := by
  have ht : buildEntriesTasks w = [] := by
    unfold buildEntriesTasks
    rw [show w.refs = ⟨none, [], []⟩ from h]
    simp
  exact ⟨by unfold buildEntries; rw [ht]; rfl, ht⟩

/-- Folding the gather results keeps the accumulator across raised tasks. -/
theorem foldl_errors (l : List (Except Unit (List String)))
    (h : ∀ r ∈ l, r = Except.error ()) (acc : List String) :
    l.foldl
      (fun acc r =>
        match r with
        | Except.error _ => acc
        | Except.ok x => acc ++ x)
      acc = acc := by
  induction l generalizing acc with
  | nil => rfl
  | cons a t ih =>
    have ha := h a (List.mem_cons_self a t)
    rw [List.foldl_cons, ha]
    exact ih (fun r hr => h r (List.mem_cons_of_mem _ hr)) acc

/-- When every fetch raises, the aggregation is empty. -/
theorem buildEntries_allFail (w : TimelineWorld) (h : allFetchesFail w) :
    buildEntries w = [] := by
  obtain ⟨h1, h2, h3⟩ := h
  have hmem : ∀ r ∈ buildEntriesTasks w, r = Except.error () := by
    intro r hr
    unfold buildEntriesTasks at hr
    simp only [List.mem_append] at hr
    rcases hr with (hr | hr) | hr
    · split at hr
      · rw [List.mem_singleton.mp hr]; exact h1
      · exact absurd hr (List.not_mem_nil r)
    · split at hr
      · rw [List.mem_singleton.mp hr]; exact h2
      · exact absurd hr (List.not_mem_nil r)
    · split at hr
      · rw [List.mem_singleton.mp hr]; exact h3
      · exact absurd hr (List.not_mem_nil r)
  unfold buildEntries
  split
  · rfl
  · exact foldl_errors _ hmem []

/-- In every non-hit branch collect returns the remote aggregation. -/
theorem collect_of_not_hit (w : TimelineWorld) (h : ¬ hitsCache w) :
    ∃ pre, collect w = collectMiss w pre := by
  unfold collect
  split
  · rename_i hc
    match hr : w.cacheRead with
    | CacheReadOutcome.raised => exact ⟨1, rfl⟩
    | CacheReadOutcome.missing => exact ⟨0, rfl⟩
    | CacheReadOutcome.badJson => exact ⟨0, rfl⟩
    | CacheReadOutcome.hitGood entries => exact absurd ⟨hc, entries, hr⟩ h
  · exact ⟨0, rfl⟩

/-- C4 (amended): collect never raises to its caller, whatever the cache,
the Redis write and the downstream fetches do; and whenever the call does
not return straight from a decodable cache hit, it returns the empty list
both when the ticket context holds no order, payment or shipment references
and when every issued remote call fails. -/
theorem timeline_collect_never_raises (w : TimelineWorld) :
    (∃ out, collect w = Except.ok out) ∧
    (¬ hitsCache w → noRefs w.refs → ∃ s, collect w = Except.ok ([], s)) ∧
    (¬ hitsCache w → allFetchesFail w → ∃ s, collect w = Except.ok ([], s)) := by
  refine ⟨collect_isOk w, ?_, ?_⟩
  · intro hnh href
    obtain ⟨pre, hpre⟩ := collect_of_not_hit w hnh
    obtain ⟨s, hs⟩ := collectMiss_ok w pre
    exact ⟨s, by rw [hpre, hs, (buildEntries_noRefs w href).1]⟩
  · intro hnh hfail
    obtain ⟨pre, hpre⟩ := collect_of_not_hit w hnh
    obtain ⟨s, hs⟩ := collectMiss_ok w pre
    exact ⟨s, by rw [hpre, hs, buildEntries_allFail w hfail]⟩

/-- C4 counterexample: a ticket with no references whose cache entry decodes
to a nonempty list: collect returns the cached list, not the empty list. -/
theorem timeline_cached_overrides_refs :
    collect
      { redisSome := true, cacheTtl := 60,
        cacheRead := CacheReadOutcome.hitGood ["stale"],
        refs := ⟨none, [], []⟩, hasOrderUrl := true, hasPaymentUrl := true,
        hasFulfillmentUrl := true, orderFetch := Except.error (),
        paymentFetch := Except.error (), shipmentFetch := Except.error (),
        cacheWrite := Except.ok () } = Except.ok (["stale"], ⟨0, 0⟩) ∧
    noRefs (⟨none, [], []⟩ : References) ∧ (["stale"] : List String) ≠ [] :=
  ⟨rfl, rfl, by decide⟩

/-- C5: the cache key is support:timeline: followed by the ticket id; a
decodable cache hit returns the cached value with zero fetch tasks issued; a
raising cache read falls through to the remote aggregation with the
stage-cache failure counter incremented; and a failing cache write still
returns a value. -/
theorem timeline_cache_aside (w : TimelineWorld) (l : List String) (t : String) :
    (cacheKey t = "support:timeline:" ++ t) ∧
    (cacheEnabled w = true → w.cacheRead = CacheReadOutcome.hitGood l →
      collect w = Except.ok (l, ⟨0, 0⟩)) ∧
    (cacheEnabled w = true → w.cacheRead = CacheReadOutcome.raised →
      ∃ s, collect w = Except.ok (buildEntries w, s) ∧ 1 ≤ s.cacheFailures ∧
        s.httpTasks = (buildEntriesTasks w).length) ∧
    (w.cacheWrite = Except.error () → ∃ out, collect w = Except.ok out) := by
  refine ⟨rfl, ?_, ?_, fun _ => collect_isOk w⟩
  · intro hc hr
    unfold collect
    rw [if_pos hc, hr]
  · intro hc hr
    have hcoll : collect w = collectMiss w 1 := by
      unfold collect
      rw [if_pos hc, hr]
    cases hcw : w.cacheWrite with
    | error e =>
      refine ⟨⟨(buildEntriesTasks w).length, 2⟩, ?_, by norm_num, rfl⟩
      rw [hcoll]
      unfold collectMiss
      rw [if_pos hc, hcw]
    | ok v =>
      refine ⟨⟨(buildEntriesTasks w).length, 1⟩, ?_, by norm_num, rfl⟩
      rw [hcoll]
      unfold collectMiss
      rw [if_pos hc, hcw]
